import Mathlib

/-!
Shallow embedding of the ProbabilityMarketWebsockets repository
(Rust) for checking its natural-language specification.

Conventions of the embedding:
- rust_decimal Decimal values are modelled as exact rationals, since
  Decimal arithmetic on the ranges used here is exact decimal arithmetic
  and Decimal equality compares numeric value.
- chrono timestamps are modelled as integers; functions that call
  chrono Utc::now() take the current time as an explicit parameter.
- Rust Option and Vec become Lean Option and List; struct and function
  names follow the source (src/strategy/types.rs, size_calculator.rs,
  fees.rs, src/common/types.rs, src/polymarket/messages.rs,
  websocket.rs).
-/

set_option autoImplicit false

/-- Platform identifier. Declared identically (same two variants) in
src/strategy/types.rs and src/common/types.rs; modelled once. -/
inductive Platform
  | Kalshi
  | Polymarket
deriving DecidableEq, Repr

/-- Trade side. Declared identically in src/strategy/types.rs and
src/common/types.rs; modelled once. -/
inductive Side
  | Buy
  | Sell
deriving DecidableEq, Repr

/-- A single leg of a trade (src/strategy/types.rs, TradeLeg). -/
structure TradeLeg where
  platform : Platform
  market_id : String
  side : Side
  suggested_price : Option ℚ
deriving DecidableEq, Repr

/-- A trade intent containing zero or more legs
(src/strategy/types.rs, TradeIntent). -/
structure TradeIntent where
  legs : List TradeLeg
  reason : String
deriving DecidableEq, Repr

/-- Pre-computed size for a potential trade
(src/strategy/size_calculator.rs, ComputedSize). -/
structure ComputedSize where
  platform : Platform
  market_id : String
  side : Side
  size : ℚ
  price : ℚ
  computed_at : ℤ
deriving DecidableEq, Repr

/-- Key for looking up pre-computed sizes
(src/strategy/size_calculator.rs, SizeKey). -/
structure SizeKey where
  platform : Platform
  market_id : String
  side : Side
deriving DecidableEq, Repr

/-- SizeKey::from_leg. -/
def SizeKey.from_leg (leg : TradeLeg) : SizeKey :=
  { platform := leg.platform, market_id := leg.market_id, side := leg.side }

/-- Sized trade leg ready for execution
(src/strategy/size_calculator.rs, SizedLeg). -/
structure SizedLeg where
  platform : Platform
  market_id : String
  side : Side
  size : ℚ
  price : ℚ
deriving DecidableEq, Repr

/-- Sized trade intent ready for execution
(src/strategy/size_calculator.rs, SizedIntent). -/
structure SizedIntent where
  legs : List SizedLeg
  reason : String
deriving DecidableEq, Repr

/-- SizedIntent::is_valid: non-empty legs and every leg size strictly
positive (src/strategy/size_calculator.rs lines 61-65). -/
def SizedIntent.is_valid (s : SizedIntent) : Bool :=
  !s.legs.isEmpty && s.legs.all (fun leg => decide (0 < leg.size))

/-- The state a SizeCalculator implementation exposes through get_size:
the cache, as a partial map from keys to computed sizes. The trait's
provided methods below are parameterized by it. -/
def SizeCache : Type := SizeKey → Option ComputedSize

/-- The body of the for-loop of SizeCalculator::get_sized_intent
(src/strategy/size_calculator.rs lines 95-106): resolve each leg in
order, failing the whole resolution on the first cache miss. -/
def getSizedLegs (get_size : SizeCache) : List TradeLeg → Option (List SizedLeg)
  | [] => some []
  | leg :: rest =>
    match get_size (SizeKey.from_leg leg) with
    | none => none
    | some computed =>
      (getSizedLegs get_size rest).map
        (fun tail =>
          { platform := leg.platform
            market_id := leg.market_id
            side := leg.side
            size := computed.size
            price := leg.suggested_price.getD computed.price } :: tail)

/-- SizeCalculator::get_sized_intent (src/strategy/size_calculator.rs
lines 92-112): look up pre-computed sizes for all legs; None if any
leg has no computed size. -/
def get_sized_intent (get_size : SizeCache) (intent : TradeIntent) : Option SizedIntent :=
  (getSizedLegs get_size intent.legs).map
    (fun sized_legs => { legs := sized_legs, reason := intent.reason })

/-- SizeCalculator::can_size (src/strategy/size_calculator.rs lines
114-120): sizes available for all legs. -/
def can_size (get_size : SizeCache) (intent : TradeIntent) : Bool :=
  intent.legs.all (fun leg => (get_size (SizeKey.from_leg leg)).isSome)

/-- Fee configuration for a platform (src/strategy/fees.rs,
PlatformFees). -/
structure PlatformFees where
  platform : Platform
  maker_fee_percent : ℚ
  taker_fee_percent : ℚ
  profit_based : Bool
deriving DecidableEq, Repr

/-- PlatformFees::kalshi: 7 percent of profit on winning trades. -/
def PlatformFees.kalshi : PlatformFees :=
  { platform := Platform.Kalshi
    maker_fee_percent := 0
    taker_fee_percent := 7
    profit_based := true }

/-- PlatformFees::polymarket: currently zero fees. -/
def PlatformFees.polymarket : PlatformFees :=
  { platform := Platform.Polymarket
    maker_fee_percent := 0
    taker_fee_percent := 0
    profit_based := false }

/-- PlatformFees::for_platform. -/
def PlatformFees.for_platform : Platform → PlatformFees
  | Platform.Kalshi => PlatformFees.kalshi
  | Platform.Polymarket => PlatformFees.polymarket

/-- FeeCalculator::entry_cost (src/strategy/fees.rs lines 72-101). -/
def entry_cost (platform : Platform) (price : ℚ) (side : Side) (size : ℚ) : ℚ :=
  let fees := PlatformFees.for_platform platform
  match side with
  | Side.Buy =>
    let base_cost := price * size
    if fees.profit_based then
      base_cost
    else
      let fee := base_cost * fees.taker_fee_percent / 100
      base_cost + fee
  | Side.Sell =>
    let base_proceeds := price * size
    if fees.profit_based then
      base_proceeds
    else
      let fee := base_proceeds * fees.taker_fee_percent / 100
      base_proceeds - fee

/-- FeeCalculator::exit_value (src/strategy/fees.rs lines 122-155); the
size argument is unused in the source as well. -/
def exit_value (platform : Platform) (entry_price : ℚ) (side : Side) (_size : ℚ) : ℚ :=
  let fees := PlatformFees.for_platform platform
  match side with
  | Side.Buy =>
    let profit_per_contract := 1 - entry_price
    if fees.profit_based then
      let fee_per_contract := profit_per_contract * fees.taker_fee_percent / 100
      1 - fee_per_contract
    else
      1
  | Side.Sell =>
    if fees.profit_based then
      let profit_per_contract := entry_price
      let fee_per_contract := profit_per_contract * fees.taker_fee_percent / 100
      entry_price - fee_per_contract
    else
      entry_price

/-- FeeCalculator::net_profit (src/strategy/fees.rs lines 169-177). -/
def net_profit (platform : Platform) (entry_price : ℚ) (side : Side) (size : ℚ) : ℚ :=
  let entry := entry_cost platform entry_price side size
  let exit := exit_value platform entry_price side size * size
  match side with
  | Side.Buy => exit - entry
  | Side.Sell => entry - exit

/-- A concrete leg used by several witnesses. -/
def exLeg : TradeLeg :=
  { platform := Platform.Polymarket, market_id := "mkt", side := Side.Buy,
    suggested_price := none }

/-- A concrete computed size matching exLeg. -/
def exComputed : ComputedSize :=
  { platform := Platform.Polymarket, market_id := "mkt", side := Side.Buy,
    size := 5, price := 1, computed_at := 0 }

/-- A concrete cache holding exactly the size for exLeg. -/
def exCache : SizeCache :=
  fun key => if key = SizeKey.from_leg exLeg then some exComputed else none

/-- A concrete one-leg intent. -/
def exIntent : TradeIntent := { legs := [exLeg], reason := "momentum" }

/-- The sized intent that exCache resolves exIntent to. -/
def exSized : SizedIntent :=
  { legs := [{ platform := Platform.Polymarket, market_id := "mkt",
               side := Side.Buy, size := 5, price := 1 }]
    reason := "momentum" }

/-- A single price level in an order book (src/common/types.rs,
PriceLevel). -/
structure PriceLevel where
  price : ℚ
  size : ℚ
deriving DecidableEq, Repr

/-- Full order book for a market (src/common/types.rs, OrderBook). -/
structure OrderBook where
  platform : Platform
  market_id : String
  asset_id : String
  bids : List PriceLevel
  asks : List PriceLevel
  timestamp : ℤ
  sequence : ℕ
deriving DecidableEq, Repr

/-- OrderBook::best_bid: first element of the bids vector. -/
def OrderBook.best_bid (b : OrderBook) : Option PriceLevel :=
  b.bids.head?

/-- OrderBook::best_ask: first element of the asks vector. -/
def OrderBook.best_ask (b : OrderBook) : Option PriceLevel :=
  b.asks.head?

/-- OrderBook::midpoint (src/common/types.rs lines 89-94). -/
def OrderBook.midpoint (b : OrderBook) : Option ℚ :=
  match b.best_bid, b.best_ask with
  | some bid, some ask => some ((bid.price + ask.price) / 2)
  | _, _ => none

/-- OrderBook::spread (src/common/types.rs lines 97-102). -/
def OrderBook.spread (b : OrderBook) : Option ℚ :=
  match b.best_bid, b.best_ask with
  | some bid, some ask => some (ask.price - bid.price)
  | _, _ => none

/-- Order book update, delta or snapshot (src/common/types.rs,
OrderBookUpdate). -/
structure OrderBookUpdate where
  platform : Platform
  market_id : String
  asset_id : String
  bids : List PriceLevel
  asks : List PriceLevel
  timestamp : ℤ
  is_snapshot : Bool
  sequence : ℕ
deriving DecidableEq, Repr

/-- A single trade execution (src/common/types.rs, Trade). -/
structure Trade where
  platform : Platform
  market_id : String
  asset_id : String
  trade_id : String
  price : ℚ
  size : ℚ
  side : Side
  timestamp : ℤ
deriving DecidableEq, Repr

/-- Market metadata and status (src/common/types.rs, MarketInfo). -/
structure MarketInfo where
  platform : Platform
  market_id : String
  title : String
  description : String
  token_ids : List String
  is_active : Bool
  end_date : Option ℤ
  tick_size : Option ℚ
  neg_risk : Bool
deriving DecidableEq, Repr

/-- Connection status for a client (src/common/types.rs,
ConnectionStatus). -/
inductive ConnectionStatus
  | Connected
  | Disconnected (reason : Option String)
  | Reconnecting (attempt : ℕ)
  | Error (message : String)
deriving DecidableEq, Repr

/-- Unified market event from any platform (src/common/types.rs,
MarketEvent). -/
inductive MarketEvent
  | OrderBook (book : OrderBook)
  | OrderBookUpdate (update : OrderBookUpdate)
  | Trade (trade : Trade)
  | MarketInfo (info : MarketInfo)
  | ConnectionStatus (platform : Platform) (status : ConnectionStatus)
  | Heartbeat (platform : Platform)
  | Raw (platform : Platform) (message : String)
deriving DecidableEq, Repr

/-- JSON values, modelling serde_json Value. Objects keep their fields
as an association list; lookup takes the first binding of a key. -/
inductive Json
  | null
  | bool (b : Bool)
  | num (q : ℚ)
  | str (s : String)
  | arr (items : List Json)
  | obj (fields : List (String × Json))

/-- serde_json Value::get for object fields. -/
def Json.get (v : Json) (key : String) : Option Json :=
  match v with
  | Json.obj fields => fields.lookup key
  | _ => none

/-- serde_json Value::as_str. -/
def Json.asStr (v : Json) : Option String :=
  match v with
  | Json.str s => some s
  | _ => none

/-- Deserialize a required String struct field, as serde does for a
field of type String: the field must be present and a JSON string. -/
def reqStrField (v : Json) (key : String) : Option String :=
  (v.get key).bind Json.asStr

/-- Deserialize an optional String struct field, as serde does for a
field of type Option String: missing or null becomes none, a string
becomes some, any other JSON value is a deserialization error. -/
def optStrField (v : Json) (key : String) : Option (Option String) :=
  match v.get key with
  | none => some none
  | some Json.null => some none
  | some (Json.str s) => some (some s)
  | some _ => none

/-- Deserialize an optional integer struct field, as serde does for a
field of type Option i64 (with serde default): missing or null becomes
none, an integral JSON number becomes some, anything else errors. -/
def optIntField (v : Json) (key : String) : Option (Option ℤ) :=
  match v.get key with
  | none => some none
  | some Json.null => some none
  | some (Json.num q) => if q.den = 1 then some (some q.num) else none
  | some _ => none

/-- A price level in the book as it arrives on the wire
(src/polymarket/messages.rs, BookLevel): both fields are strings. -/
structure BookLevel where
  price : String
  size : String
deriving DecidableEq, Repr

/-- serde deserialization of BookLevel from a JSON value. -/
def BookLevel.fromJson (v : Json) : Option BookLevel :=
  match reqStrField v "price", reqStrField v "size" with
  | some price, some size => some { price := price, size := size }
  | _, _ => none

/-- Deserialize a Vec BookLevel struct field carrying a serde default:
a missing field becomes the empty vector, an array must deserialize
element-wise, anything else is an error. -/
def levelsField (v : Json) (key : String) : Option (List BookLevel) :=
  match v.get key with
  | none => some []
  | some (Json.arr items) => items.mapM BookLevel.fromJson
  | some _ => none

/-- Book update event from the websocket (src/polymarket/messages.rs,
BookUpdateEvent); the hash field is omitted as no code reads it after
deserialization, which only requires it to be absent, null or a
string, checked in fromJson below. -/
structure BookUpdateEvent where
  event_type : Option String
  asset_id : String
  market : Option String
  bids : List BookLevel
  asks : List BookLevel
  timestamp : Option ℤ
deriving DecidableEq, Repr

/-- serde deserialization of BookUpdateEvent from a JSON value. -/
def BookUpdateEvent.fromJson (v : Json) : Option BookUpdateEvent :=
  match optStrField v "event_type", reqStrField v "asset_id",
      optStrField v "market", optStrField v "hash",
      levelsField v "bids", levelsField v "asks",
      optIntField v "timestamp" with
  | some event_type, some asset_id, some market, some _, some bids,
      some asks, some timestamp =>
    some { event_type := event_type, asset_id := asset_id,
           market := market, bids := bids, asks := asks,
           timestamp := timestamp }
  | _, _, _, _, _, _, _ => none

/-- Trade event from the websocket (src/polymarket/messages.rs,
TradeEvent). -/
structure TradeEvent where
  event_type : Option String
  asset_id : String
  market : Option String
  id : Option String
  price : String
  size : String
  side : String
  timestamp : Option ℤ
deriving DecidableEq, Repr

/-- serde deserialization of TradeEvent from a JSON value. -/
def TradeEvent.fromJson (v : Json) : Option TradeEvent :=
  match optStrField v "event_type", reqStrField v "asset_id",
      optStrField v "market", optStrField v "id",
      reqStrField v "price", reqStrField v "size",
      reqStrField v "side", optIntField v "timestamp" with
  | some event_type, some asset_id, some market, some id, some price,
      some size, some side, some timestamp =>
    some { event_type := event_type, asset_id := asset_id,
           market := market, id := id, price := price, size := size,
           side := side, timestamp := timestamp }
  | _, _, _, _, _, _, _, _ => none

/-- A single price change (src/polymarket/messages.rs, PriceChange). -/
structure PriceChange where
  side : String
  price : String
  size : String
deriving DecidableEq, Repr

/-- serde deserialization of PriceChange from a JSON value. -/
def PriceChange.fromJson (v : Json) : Option PriceChange :=
  match reqStrField v "side", reqStrField v "price", reqStrField v "size" with
  | some side, some price, some size =>
    some { side := side, price := price, size := size }
  | _, _, _ => none

/-- Deserialize the changes field of PriceChangeEvent, of type
Option (Vec PriceChange) with serde default: missing or null becomes
none, an array must deserialize element-wise. -/
def changesField (v : Json) (key : String) : Option (Option (List PriceChange)) :=
  match v.get key with
  | none => some none
  | some Json.null => some none
  | some (Json.arr items) => (items.mapM PriceChange.fromJson).map some
  | some _ => none

/-- Price change event from the websocket (src/polymarket/messages.rs,
PriceChangeEvent); the price field, an Option Decimal never read by
the converter, is omitted here and only shape-checked in fromJson. -/
structure PriceChangeEvent where
  event_type : Option String
  asset_id : String
  market : Option String
  changes : Option (List PriceChange)
  timestamp : Option ℤ
deriving DecidableEq, Repr

/-- serde shape check for the price field of PriceChangeEvent, of type
Option Decimal: rust_decimal deserializes from a string or a number. -/
def optDecimalShape (v : Json) (key : String) : Bool :=
  match v.get key with
  | none => true
  | some Json.null => true
  | some (Json.num _) => true
  | some (Json.str _) => true
  | some _ => false

/-- serde deserialization of PriceChangeEvent from a JSON value. -/
def PriceChangeEvent.fromJson (v : Json) : Option PriceChangeEvent :=
  if optDecimalShape v "price" then
    match optStrField v "event_type", reqStrField v "asset_id",
        optStrField v "market", changesField v "changes",
        optIntField v "timestamp" with
    | some event_type, some asset_id, some market, some changes,
        some timestamp =>
      some { event_type := event_type, asset_id := asset_id,
             market := market, changes := changes,
             timestamp := timestamp }
    | _, _, _, _, _ => none
  else none

/-- Last trade price event (src/polymarket/messages.rs,
LastTradePriceEvent). -/
structure LastTradePriceEvent where
  event_type : Option String
  asset_id : String
  price : String
  timestamp : Option ℤ
deriving DecidableEq, Repr

/-- serde deserialization of LastTradePriceEvent from a JSON value. -/
def LastTradePriceEvent.fromJson (v : Json) : Option LastTradePriceEvent :=
  match optStrField v "event_type", reqStrField v "asset_id",
      reqStrField v "price", optIntField v "timestamp" with
  | some event_type, some asset_id, some price, some timestamp =>
    some { event_type := event_type, asset_id := asset_id,
           price := price, timestamp := timestamp }
  | _, _, _, _ => none

/-- Scanner state for decimal parsing: accumulated mantissa digits,
count of digits after the decimal point, whether any digit and whether
a point have been seen, and whether a digit followed the point. -/
structure DecScan where
  mantissa : ℕ
  scale : ℕ
  seenDigit : Bool
  seenPoint : Bool
  digitAfterPoint : Bool
deriving Repr

/-- Character scan of rust_decimal Decimal::from_str after the sign:
digits accumulate into the mantissa, at most one decimal point, an
underscore is allowed only after a digit, any other character fails;
at least one digit overall and, when a point is present, at least one
digit after it. -/
def decScan : List Char → DecScan → Option (ℕ × ℕ)
  | [], st =>
    if st.seenDigit && (!st.seenPoint || st.digitAfterPoint) then
      some (st.mantissa, st.scale)
    else none
  | c :: rest, st =>
    if c.isDigit then
      decScan rest
        { mantissa := st.mantissa * 10 + (c.toNat - 48)
          scale := if st.seenPoint then st.scale + 1 else st.scale
          seenDigit := true
          seenPoint := st.seenPoint
          digitAfterPoint := st.digitAfterPoint || st.seenPoint }
    else if c = '.' then
      if st.seenPoint then none else { st with seenPoint := true } |> decScan rest
    else if c = '_' then
      if st.seenDigit then decScan rest st else none
    else none

/-- The str::parse call on price and size strings, modelling
rust_decimal Decimal::from_str: optional sign, decimal digits with an
optional single decimal point and underscore separators, result exact;
values outside the 96-bit mantissa or scale beyond 28 are treated as a
parse failure (the source's overflow regime, which no claim touches,
is approximated as failure). -/
def parseDecimal (s : String) : Option ℚ :=
  match s.data with
  | [] => none
  | c :: rest =>
    let signed : Bool × List Char :=
      if c = '-' then (true, rest)
      else if c = '+' then (false, rest)
      else (false, c :: rest)
    match decScan signed.2 ⟨0, 0, false, false, false⟩ with
    | none => none
    | some (m, sc) =>
      if m < 2 ^ 96 ∧ sc ≤ 28 then
        some ((if signed.1 then -1 else 1) * (m : ℚ) / 10 ^ sc)
      else none

/-- The per-level closure inside convert_book_update: parse both
strings, dropping the level if either fails. -/
def parseLevel (level : BookLevel) : Option PriceLevel :=
  match parseDecimal level.price, parseDecimal level.size with
  | some p, some s => some { price := p, size := s }
  | _, _ => none

/-- PolymarketWebSocketClient::convert_book_update
(src/polymarket/websocket.rs lines 312-345); now stands for the
chrono Utc::now() call. -/
def convert_book_update (now : ℤ) (event : BookUpdateEvent) : MarketEvent :=
  let bids : List PriceLevel := event.bids.filterMap parseLevel
  let asks : List PriceLevel := event.asks.filterMap parseLevel
  MarketEvent.OrderBookUpdate
    { platform := Platform.Polymarket
      market_id := event.market.getD ""
      asset_id := event.asset_id
      bids := bids
      asks := asks
      timestamp := now
      is_snapshot := event.event_type == some "book"
      sequence := 0 }

/-- The str::to_lowercase calls on side tokens, modelled as a
characterwise lowercase map; this agrees with Rust on all tokens the
dispatch compares against, which are ASCII. -/
def strToLower (s : String) : String :=
  String.mk (s.data.map Char.toLower)

/-- The side match inside convert_trade (src/polymarket/websocket.rs
lines 379-382): lowercase buy or bid map to Buy, everything else to
Sell. -/
def convert_trade_side (s : String) : Side :=
  if strToLower s = "buy" ∨ strToLower s = "bid" then Side.Buy else Side.Sell

/-- PolymarketWebSocketClient::convert_trade
(src/polymarket/websocket.rs lines 378-394); prices that fail to parse
fall back to Decimal::default, which is zero. -/
def convert_trade (now : ℤ) (event : TradeEvent) : MarketEvent :=
  MarketEvent.Trade
    { platform := Platform.Polymarket
      market_id := event.market.getD ""
      asset_id := event.asset_id
      trade_id := event.id.getD ""
      price := (parseDecimal event.price).getD 0
      size := (parseDecimal event.size).getD 0
      side := convert_trade_side event.side
      timestamp := now }

/-- The per-change step inside convert_price_change: a change whose
price and size both parse is routed to the bid or ask list by its
lowercased side token; otherwise it is skipped. -/
def priceChangeStep (change : PriceChange) (acc : List PriceLevel × List PriceLevel) :
    List PriceLevel × List PriceLevel :=
  match parseDecimal change.price, parseDecimal change.size with
  | some price, some size =>
    let level : PriceLevel := { price := price, size := size }
    if strToLower change.side = "buy" ∨ strToLower change.side = "bid" then
      (acc.1 ++ [level], acc.2)
    else if strToLower change.side = "sell" ∨ strToLower change.side = "ask" then
      (acc.1, acc.2 ++ [level])
    else acc
  | _, _ => acc

/-- PolymarketWebSocketClient::convert_price_change
(src/polymarket/websocket.rs lines 348-375). -/
def convert_price_change (now : ℤ) (event : PriceChangeEvent) : MarketEvent :=
  let lists : List PriceLevel × List PriceLevel :=
    (event.changes.getD []).foldl (fun acc change => priceChangeStep change acc) ([], [])
  MarketEvent.OrderBookUpdate
    { platform := Platform.Polymarket
      market_id := event.market.getD ""
      asset_id := event.asset_id
      bids := lists.1
      asks := lists.2
      timestamp := now
      is_snapshot := false
      sequence := 0 }

/-- The shared tail of parse_message after the event_type dispatch
(src/polymarket/websocket.rs lines 298-308): structural sniff on bids
and asks, then the Raw passthrough carrying the original text. -/
def parse_fallback (now : ℤ) (text : String) (value : Json) : Except Unit MarketEvent :=
  if (value.get "bids").isSome && (value.get "asks").isSome then
    match BookUpdateEvent.fromJson value with
    | some book_event => Except.ok (convert_book_update now book_event)
    | none => Except.error ()
  else
    Except.ok (MarketEvent.Raw Platform.Polymarket text)

/-- The branch of parse_message for event_type trade or
last_trade_price (src/polymarket/websocket.rs lines 278-293). -/
def parse_trade_branch (now : ℤ) (value : Json) : Except Unit MarketEvent :=
  if (value.get "id").isSome then
    match TradeEvent.fromJson value with
    | some trade_event => Except.ok (convert_trade now trade_event)
    | none => Except.error ()
  else
    match LastTradePriceEvent.fromJson value with
    | some ltp_event =>
      Except.ok (MarketEvent.Raw Platform.Polymarket
        ("Last trade price for " ++ ltp_event.asset_id ++ ": " ++ ltp_event.price))
    | none => Except.error ()

/-- PolymarketWebSocketClient::parse_message
(src/polymarket/websocket.rs lines 263-309). The parsed argument is
the result of the serde_json from_str call on text, with none standing
for a JSON syntax error; an Except error models the question-mark
propagation of serde errors out of parse_message. -/
def parse_message (now : ℤ) (text : String) (parsed : Option Json) :
    Except Unit MarketEvent :=
  match parsed with
  | none => Except.error ()
  | some value =>
    match (value.get "event_type").bind Json.asStr with
    | some event_type =>
      if event_type = "book" then
        match BookUpdateEvent.fromJson value with
        | some book_event => Except.ok (convert_book_update now book_event)
        | none => Except.error ()
      else if event_type = "price_change" then
        match PriceChangeEvent.fromJson value with
        | some price_event => Except.ok (convert_price_change now price_event)
        | none => Except.error ()
      else if event_type = "trade" ∨ event_type = "last_trade_price" then
        parse_trade_branch now value
      else
        parse_fallback now text value
    | none => parse_fallback now text value

/-- The Text-frame handling of the receive loop after the pong check
(src/polymarket/websocket.rs lines 158-176): a parse error is never
surfaced; it degrades to a Raw event carrying the original text. -/
def normalize_message (now : ℤ) (text : String) (parsed : Option Json) : MarketEvent :=
  match parse_message now text parsed with
  | Except.ok event => event
  | Except.error _ => MarketEvent.Raw Platform.Polymarket text

/-- One observable wake-up of the heartbeat task
(src/polymarket/websocket.rs lines 120-136): either its interval ticks
while the liveness flag holds the given value, or the shutdown side
channel closes. -/
inductive HbEvent
  | tick (flag : Bool)
  | shutdown
deriving DecidableEq, Repr

/-- One iteration of the heartbeat loop body: true means the loop
breaks. A tick breaks exactly when the liveness flag reads false; the
shutdown signal always breaks. -/
def hbStep : HbEvent → Bool
  | HbEvent.tick flag => !flag
  | HbEvent.shutdown => true

/-- Run of the heartbeat loop over a sequence of wake-ups: the index
of the wake-up at which the loop exits, or none if it is still running
after all of them. -/
def hbRun : List HbEvent → Option ℕ
  | [] => none
  | e :: rest => if hbStep e then some 0 else (hbRun rest).map (· + 1)

/-- Leg resolution fails exactly when some leg has no cached size. -/
theorem getSizedLegs_eq_none_iff (g : SizeCache) (legs : List TradeLeg) :
    getSizedLegs g legs = none ↔ ∃ leg ∈ legs, g (SizeKey.from_leg leg) = none := by
  induction legs with
  | nil => simp [getSizedLegs]
  | cons leg rest ih =>
    cases hleg : g (SizeKey.from_leg leg) with
    | none => simp [getSizedLegs, hleg]
    | some c => simp [getSizedLegs, hleg, ih]

/-- Relation between an input leg and the sized leg produced for it. -/
def sizedLegMatches (g : SizeCache) (leg : TradeLeg) (sl : SizedLeg) : Prop :=
  sl.platform = leg.platform ∧ sl.market_id = leg.market_id ∧ sl.side = leg.side ∧
  ∃ c, g (SizeKey.from_leg leg) = some c ∧ sl.size = c.size ∧
    sl.price = leg.suggested_price.getD c.price

/-- Successful leg resolution relates inputs and outputs pointwise in
order. -/
theorem getSizedLegs_forall2 (g : SizeCache) :
    ∀ (legs : List TradeLeg) (sls : List SizedLeg),
      getSizedLegs g legs = some sls →
      List.Forall₂ (sizedLegMatches g) legs sls := by
  intro legs
  induction legs with
  | nil =>
    intro sls h
    simp only [getSizedLegs] at h
    cases h
    exact List.Forall₂.nil
  | cons leg rest ih =>
    intro sls h
    cases hleg : g (SizeKey.from_leg leg) with
    | none => simp [getSizedLegs, hleg] at h
    | some c =>
      simp only [getSizedLegs, hleg] at h
      cases htail : getSizedLegs g rest with
      | none => simp [htail] at h
      | some tail =>
        simp only [htail, Option.map_some'] at h
        cases h
        refine List.Forall₂.cons ?_ (ih tail htail)
        exact ⟨rfl, rfl, rfl, c, hleg, rfl, rfl⟩

/-- C1 counterexample: the zero-leg intent is fully resolved by any
cache, every leg of the resulting sized intent has strictly positive
size vacuously, and yet is_valid is false, refuting the claimed
equivalence for sized intents obtained from fully-resolved intents. -/
theorem C1_counterexample :
    get_sized_intent (fun _ => none) { legs := [], reason := "empty" } =
      some { legs := [], reason := "empty" } ∧
    (({ legs := [], reason := "empty" } : SizedIntent).legs.all
      (fun leg => decide (0 < leg.size)) = true) ∧
    SizedIntent.is_valid { legs := [], reason := "empty" } = false :=
  ⟨rfl, rfl, rfl⟩

/-- C1 (amended): get_sized_intent returns None exactly when some
leg's key is absent from the cache; and for a SizedIntent obtained
from a fully-resolved intent, is_valid is true exactly when the intent
has at least one leg and every leg's size is strictly positive. -/
theorem C1_sizing_contract (g : SizeCache) (intent : TradeIntent) :
    (get_sized_intent g intent = none ↔
      ∃ leg ∈ intent.legs, g (SizeKey.from_leg leg) = none) ∧
    (∀ sized, get_sized_intent g intent = some sized →
      (sized.is_valid = true ↔
        sized.legs ≠ [] ∧ ∀ leg ∈ sized.legs, 0 < leg.size)) := by
  constructor
  · rw [← getSizedLegs_eq_none_iff g intent.legs]
    simp [get_sized_intent]
  · intro sized _
    simp [SizedIntent.is_valid, List.all_eq_true, List.isEmpty_iff]

/-- Witness for C1_sizing_contract at a concrete cache and intent. -/
theorem C1_sizing_contract_witness : exSized.is_valid = true := by
  have h := (C1_sizing_contract exCache exIntent).2 exSized (by decide)
  exact h.mpr ⟨by decide, by decide⟩

/-- C9: can_size agrees with definedness of get_sized_intent, and a
zero-leg intent is fully sizable under every cache. -/
theorem C9_can_size_iff (g : SizeCache) (intent : TradeIntent) :
    (can_size g intent = true ↔ (get_sized_intent g intent).isSome = true) ∧
    (∀ r : String, can_size g { legs := [], reason := r } = true ∧
      get_sized_intent g { legs := [], reason := r } =
        some { legs := [], reason := r }) := by
  constructor
  · rw [can_size, List.all_eq_true]
    rw [get_sized_intent, Option.isSome_map']
    rw [Option.isSome_iff_ne_none, Ne, getSizedLegs_eq_none_iff]
    push_neg
    constructor
    · intro h leg hmem
      have := h leg hmem
      rwa [Option.isSome_iff_ne_none] at this
    · intro h leg hmem
      rw [Option.isSome_iff_ne_none]
      exact h leg hmem
  · intro r
    exact ⟨rfl, rfl⟩

/-- C10: a successful get_sized_intent keeps the reason, produces the
same number of legs in the same order, copies platform, market and
side from each input leg, takes each size from the cache, and takes
each price from the leg's suggested price when present, else from the
cache. -/
theorem C10_sized_intent_fields (g : SizeCache) (intent : TradeIntent)
    (sized : SizedIntent) (h : get_sized_intent g intent = some sized) :
    sized.reason = intent.reason ∧
    sized.legs.length = intent.legs.length ∧
    List.Forall₂ (sizedLegMatches g) intent.legs sized.legs := by
  simp only [get_sized_intent] at h
  cases hlegs : getSizedLegs g intent.legs with
  | none => rw [hlegs] at h; cases h
  | some sls =>
    rw [hlegs, Option.map_some'] at h
    cases h
    have hrel := getSizedLegs_forall2 g intent.legs sls hlegs
    exact ⟨rfl, (List.Forall₂.length_eq hrel).symm, hrel⟩

/-- Witness for C10_sized_intent_fields at a concrete cache and
intent. -/
theorem C10_sized_intent_fields_witness :
    exSized.reason = exIntent.reason ∧
    exSized.legs.length = exIntent.legs.length ∧
    List.Forall₂ (sizedLegMatches exCache) exIntent.legs exSized.legs :=
  C10_sized_intent_fields exCache exIntent exSized (by decide)

/-- C3 counterexample: on the zero-fee venue, exit_value for side Sell
at entry price 0.30 is 0.30, not 1.0, refuting the claim that
exit_value equals 1.0 for every side. -/
theorem C3_counterexample :
    exit_value Platform.Polymarket (0.30 : ℚ) Side.Sell 5 = (0.30 : ℚ) ∧
    (0.30 : ℚ) ≠ 1 := by
  constructor
  · norm_num [exit_value, PlatformFees.for_platform, PlatformFees.polymarket]
  · norm_num

/-- C3 (amended): on the zero-fee venue, entry_cost is exactly
price times size for every price, size and side; exit_value is exactly
1.0 for side Buy, and exactly the entry price for side Sell. -/
theorem C3_zero_fee_exact (price size entry entry_size : ℚ) (side : Side) :
    entry_cost Platform.Polymarket price side size = price * size ∧
    exit_value Platform.Polymarket entry Side.Buy entry_size = 1 ∧
    exit_value Platform.Polymarket entry Side.Sell entry_size = entry := by
  cases side <;>
    norm_num [entry_cost, exit_value, PlatformFees.for_platform,
      PlatformFees.polymarket]

/-- C4: on the profit-based venue with a 7 percent rate, buying at
0.40 yields exit_value 0.958 per unit, and net_profit for size 100 is
95.8 minus 40.0, which is 55.8, in exact arithmetic. -/
theorem C4_kalshi_profit_fee :
    exit_value Platform.Kalshi (0.40 : ℚ) Side.Buy 100 =
      1 - (1 - 0.40) * (0.07 : ℚ) ∧
    (1 - (1 - 0.40) * (0.07 : ℚ)) = (0.958 : ℚ) ∧
    net_profit Platform.Kalshi (0.40 : ℚ) Side.Buy 100 =
      (95.8 : ℚ) - (40.0 : ℚ) ∧
    (95.8 : ℚ) - (40.0 : ℚ) = (55.8 : ℚ) := by
  refine ⟨?_, by norm_num, ?_, by norm_num⟩ <;>
    norm_num [net_profit, entry_cost, exit_value, PlatformFees.for_platform,
      PlatformFees.kalshi]

/-- C7: with at least one bid and one ask, midpoint is the average of
the first bid and first ask prices and spread is their difference;
with no bids or no asks, both are absent. -/
theorem C7_midpoint_spread (b : OrderBook) :
    (∀ bid bs ask as, b.bids = bid :: bs → b.asks = ask :: as →
      b.midpoint = some ((bid.price + ask.price) / 2) ∧
      b.spread = some (ask.price - bid.price)) ∧
    ((b.bids = [] ∨ b.asks = []) → b.midpoint = none ∧ b.spread = none) := by
  constructor
  · intro bid bs ask as hb ha
    constructor
    · simp [OrderBook.midpoint, OrderBook.best_bid, OrderBook.best_ask, hb, ha]
    · simp [OrderBook.spread, OrderBook.best_bid, OrderBook.best_ask, hb, ha]
  · intro h
    cases h with
    | inl h =>
      constructor <;>
        simp [OrderBook.midpoint, OrderBook.spread, OrderBook.best_bid, h]
    | inr h =>
      constructor <;>
        simp [OrderBook.midpoint, OrderBook.spread, OrderBook.best_bid,
          OrderBook.best_ask, h]

/-- A concrete order book used by the C7 witness. -/
def exBook : OrderBook :=
  { platform := Platform.Polymarket, market_id := "test",
    asset_id := "token123",
    bids := [{ price := 0.45, size := 100 }],
    asks := [{ price := 0.55, size := 100 }],
    timestamp := 0, sequence := 1 }

/-- Witness for C7_midpoint_spread on a concrete order book. -/
theorem C7_midpoint_spread_witness :
    exBook.midpoint = some (0.50 : ℚ) ∧ exBook.spread = some (0.10 : ℚ) := by
  have h := (C7_midpoint_spread exBook).1
    { price := 0.45, size := 100 } [] { price := 0.55, size := 100 } [] rfl rfl
  constructor
  · rw [h.1]; norm_num
  · rw [h.2]; norm_num

/-- Dropping unparseable levels: filterMap over parseLevel keeps
exactly the levels whose two strings parse, in order. -/
theorem filterMap_parseLevel_eq (levels : List BookLevel) :
    levels.filterMap parseLevel =
      (levels.filter (fun l => (parseLevel l).isSome)).map
        (fun l => (parseLevel l).getD { price := 0, size := 0 }) := by
  induction levels with
  | nil => rfl
  | cons l rest ih =>
    cases h : parseLevel l <;>
      simp [List.filterMap_cons, List.filter_cons, h, ih]

/-- A book-update message with event_type book and the levels of the
round-trip property. -/
def bookJson : Json :=
  Json.obj
    [ ("event_type", Json.str "book")
    , ("asset_id", Json.str "123456")
    , ("market", Json.str "condition_123")
    , ("bids", Json.arr
        [ Json.obj [("price", Json.str "0.50"), ("size", Json.str "100")]
        , Json.obj [("price", Json.str "0.48"), ("size", Json.str "200")] ])
    , ("asks", Json.arr
        [ Json.obj [("price", Json.str "0.55"), ("size", Json.str "80")]
        , Json.obj [("price", Json.str "0.58"), ("size", Json.str "120")] ]) ]

/-- The same book-update message without an event_type field: it is
recognized through the structural bid and ask sniff instead. -/
def sniffJson : Json :=
  Json.obj
    [ ("asset_id", Json.str "123456")
    , ("market", Json.str "condition_123")
    , ("bids", Json.arr
        [ Json.obj [("price", Json.str "0.50"), ("size", Json.str "100")]
        , Json.obj [("price", Json.str "0.48"), ("size", Json.str "200")] ])
    , ("asks", Json.arr
        [ Json.obj [("price", Json.str "0.55"), ("size", Json.str "80")]
        , Json.obj [("price", Json.str "0.58"), ("size", Json.str "120")] ]) ]

/-- A book-update message with one bid whose price string does not
parse as a decimal. -/
def badLevelJson : Json :=
  Json.obj
    [ ("event_type", Json.str "book")
    , ("asset_id", Json.str "123456")
    , ("market", Json.str "condition_123")
    , ("bids", Json.arr
        [ Json.obj [("price", Json.str "0.50"), ("size", Json.str "100")]
        , Json.obj [("price", Json.str "abc"), ("size", Json.str "1")]
        , Json.obj [("price", Json.str "0.48"), ("size", Json.str "200")] ])
    , ("asks", Json.arr
        [ Json.obj [("price", Json.str "0.55"), ("size", Json.str "80")] ]) ]

/-- C5: the round-trip book normalization yields exactly the given
levels in order with is_snapshot true when event_type is book and
false when the message is recognized structurally instead; a level
that fails to parse is dropped while the rest of the message still
normalizes; and in general convert_book_update keeps exactly the
parseable levels in order and sets is_snapshot to whether event_type
is book. -/
theorem C5_book_roundtrip :
    (∀ (now : ℤ) (text : String),
      parse_message now text (some bookJson) =
        Except.ok (MarketEvent.OrderBookUpdate
          { platform := Platform.Polymarket
            market_id := "condition_123"
            asset_id := "123456"
            bids := [{ price := 0.50, size := 100 }, { price := 0.48, size := 200 }]
            asks := [{ price := 0.55, size := 80 }, { price := 0.58, size := 120 }]
            timestamp := now
            is_snapshot := true
            sequence := 0 })) ∧
    (∀ (now : ℤ) (text : String),
      parse_message now text (some sniffJson) =
        Except.ok (MarketEvent.OrderBookUpdate
          { platform := Platform.Polymarket
            market_id := "condition_123"
            asset_id := "123456"
            bids := [{ price := 0.50, size := 100 }, { price := 0.48, size := 200 }]
            asks := [{ price := 0.55, size := 80 }, { price := 0.58, size := 120 }]
            timestamp := now
            is_snapshot := false
            sequence := 0 })) ∧
    (∀ (now : ℤ) (text : String),
      parse_message now text (some badLevelJson) =
        Except.ok (MarketEvent.OrderBookUpdate
          { platform := Platform.Polymarket
            market_id := "condition_123"
            asset_id := "123456"
            bids := [{ price := 0.50, size := 100 }, { price := 0.48, size := 200 }]
            asks := [{ price := 0.55, size := 80 }]
            timestamp := now
            is_snapshot := true
            sequence := 0 })) ∧
    (∀ (now : ℤ) (ev : BookUpdateEvent),
      convert_book_update now ev =
        MarketEvent.OrderBookUpdate
          { platform := Platform.Polymarket
            market_id := ev.market.getD ""
            asset_id := ev.asset_id
            bids := (ev.bids.filter (fun l => (parseLevel l).isSome)).map
              (fun l => (parseLevel l).getD { price := 0, size := 0 })
            asks := (ev.asks.filter (fun l => (parseLevel l).isSome)).map
              (fun l => (parseLevel l).getD { price := 0, size := 0 })
            timestamp := now
            is_snapshot := ev.event_type == some "book"
            sequence := 0 }) := by
  refine ⟨?_, ?_, ?_, ?_⟩
  · intro now text
    simp +decide [parse_message, bookJson, Json.get, Json.asStr,
      BookUpdateEvent.fromJson, optStrField, reqStrField, optIntField,
      levelsField, BookLevel.fromJson, convert_book_update, parseLevel,
      parseDecimal, decScan, List.lookup, List.mapM, List.mapM.loop]
    norm_num
  · intro now text
    simp +decide [parse_message, sniffJson, Json.get, Json.asStr,
      parse_fallback, BookUpdateEvent.fromJson, optStrField, reqStrField,
      optIntField, levelsField, BookLevel.fromJson, convert_book_update,
      parseLevel, parseDecimal, decScan, List.lookup, List.mapM,
      List.mapM.loop]
    norm_num
  · intro now text
    simp +decide [parse_message, badLevelJson, Json.get, Json.asStr,
      BookUpdateEvent.fromJson, optStrField, reqStrField, optIntField,
      levelsField, BookLevel.fromJson, convert_book_update, parseLevel,
      parseDecimal, decScan, List.lookup, List.mapM, List.mapM.loop]
    norm_num
  · intro now ev
    simp [convert_book_update, filterMap_parseLevel_eq]

/-- A trade message with the fields of the round-trip property. -/
def tradeJson : Json :=
  Json.obj
    [ ("event_type", Json.str "trade")
    , ("asset_id", Json.str "123456")
    , ("market", Json.str "condition_123")
    , ("id", Json.str "t1")
    , ("price", Json.str "0.52")
    , ("size", Json.str "25")
    , ("side", Json.str "buy") ]

/-- C6: the concrete trade message normalizes to a Trade event with
side Buy, price 0.52 and size 25; side tokens are matched on their
lowercase form, with buy and bid mapping to Buy and sell and ask
mapping to Sell. -/
theorem C6_trade_roundtrip (now : ℤ) (text : String) :
    parse_message now text (some tradeJson) =
      Except.ok (MarketEvent.Trade
        { platform := Platform.Polymarket
          market_id := "condition_123"
          asset_id := "123456"
          trade_id := "t1"
          price := 0.52
          size := 25
          side := Side.Buy
          timestamp := now }) ∧
    (∀ s : String, convert_trade_side s = Side.Buy ↔
      (strToLower s = "buy" ∨ strToLower s = "bid")) ∧
    (∀ s : String, (strToLower s = "sell" ∨ strToLower s = "ask") →
      convert_trade_side s = Side.Sell) := by
  refine ⟨?_, ?_, ?_⟩
  · simp +decide [parse_message, tradeJson, Json.get, Json.asStr,
      parse_trade_branch, TradeEvent.fromJson, optStrField, reqStrField,
      optIntField, convert_trade, convert_trade_side, parseDecimal,
      decScan, List.lookup]
    norm_num
  · intro s
    by_cases h : strToLower s = "buy" ∨ strToLower s = "bid" <;>
      simp [convert_trade_side, h]
  · intro s h
    rcases h with h | h <;> simp [convert_trade_side, h]

/-- Witness for C6_trade_roundtrip: an uppercase synonym maps to
Sell. -/
theorem C6_trade_roundtrip_witness : convert_trade_side "ASK" = Side.Sell :=
  (C6_trade_roundtrip 0 "x").2.2 "ASK" (Or.inr (by decide))


/-- C2: the receive-loop normalization of a text frame never surfaces
an error: JSON syntax failures degrade to a Raw event carrying the
original text, valid JSON whose event_type tag is unrecognized and
which lacks the structural bid and ask fields degrades to a Raw event
carrying the original text, and every parse_message error whatsoever
degrades to a Raw event carrying the original text. -/
theorem C2_raw_passthrough (now : ℤ) (text : String) (parsed : Option Json) :
    (parsed = none →
      normalize_message now text parsed =
        MarketEvent.Raw Platform.Polymarket text) ∧
    (∀ v, parsed = some v →
      (∀ et, (v.get "event_type").bind Json.asStr = some et →
        et ≠ "book" ∧ et ≠ "price_change" ∧ et ≠ "trade" ∧
          et ≠ "last_trade_price") →
      ((v.get "bids").isSome = false ∨ (v.get "asks").isSome = false) →
      normalize_message now text parsed =
        MarketEvent.Raw Platform.Polymarket text) ∧
    (∀ err, parse_message now text parsed = Except.error err →
      normalize_message now text parsed =
        MarketEvent.Raw Platform.Polymarket text) := by
  refine ⟨?_, ?_, ?_⟩
  · intro h
    subst h
    rfl
  · intro v hv htag hsniff
    subst hv
    simp only [normalize_message, parse_message]
    cases htag2 : (v.get "event_type").bind Json.asStr with
    | none =>
      rcases hsniff with h | h <;> simp [parse_fallback, h]
    | some et =>
      obtain ⟨h1, h2, h3, h4⟩ := htag et htag2
      rcases hsniff with h | h <;>
        simp [h1, h2, h3, h4, parse_fallback, h]
  · intro err herr
    simp [normalize_message, herr]

/-- Witness for C2_raw_passthrough: text that is not valid JSON
normalizes to a Raw event carrying it. -/
theorem C2_raw_passthrough_witness :
    normalize_message 0 "not json" none =
      MarketEvent.Raw Platform.Polymarket "not json" :=
  (C2_raw_passthrough 0 "not json" none).1 rfl

/-- C8: if the heartbeat loop has survived a prefix of wake-ups and
the next wake-up is a tick that reads the cleared liveness flag, the
loop exits exactly at that tick. -/
theorem C8_heartbeat_exits (pre rest : List HbEvent)
    (h : ∀ e ∈ pre, hbStep e = false) :
    hbRun (pre ++ HbEvent.tick false :: rest) = some pre.length := by
  induction pre with
  | nil => simp [hbRun, hbStep]
  | cons e es ih =>
    have he : hbStep e = false := h e (by simp)
    have hes : ∀ x ∈ es, hbStep x = false := fun x hx => h x (by simp [hx])
    simp [hbRun, he, ih hes]

/-- Witness for C8_heartbeat_exits: after two live ticks and a tick
with the flag cleared, the loop exits at the third wake-up. -/
theorem C8_heartbeat_exits_witness :
    hbRun [HbEvent.tick true, HbEvent.tick true, HbEvent.tick false] = some 2 := by
  have h := C8_heartbeat_exits [HbEvent.tick true, HbEvent.tick true] []
    (by decide)
  simpa using h
